import Mathlib

/-!
Verification of the financial simulation engine of `to-rent-or-to-own`
(`src/utils.py` and `src/to_rent_or_to_own.py`).

Python floating-point numbers are modelled as real numbers; the
fractional power `(1 + r) ** (1 / 12)` of the source becomes `Real.rpow`.
Field names follow the source, except that `downpayment_ratio` and
`price_to_rent_ratio` are rendered as `downpayment_frac` and
`price_to_rent` here.
-/

namespace RentOrOwn

/-- `MONTHS` constant from `utils.py`. -/
def MONTHS : ℕ := 12

/-- The `Decision` enum from `utils.py`: the two strategies. -/
inductive Decision where
  | RENT : Decision
  | BUY : Decision
deriving DecidableEq

/-- The `Parameters` dataclass from `utils.py`.  `downpayment_frac` models
the source field `downpayment_ratio` and `price_to_rent` models the source
field `price_to_rent_ratio`. -/
structure Parameters where
  roi_real_estate : ℝ := 0
  roi_stocks : ℝ := 0
  mortgage_interest_rate : ℝ := 0
  base_house_misc_costs : ℝ := 0
  downpayment_frac : ℝ := 0
  base_house_equity : ℝ := 0
  price_to_rent : ℝ := 0
  base_rent_per_year : ℝ := 0
  num_years : ℕ := 0
  monthly_income : ℝ := 0

/-- `define_inputs` from `to_rent_or_to_own.py`: builds a `Parameters`
bundle from the widget values (house value, monthly income, price-to-rent
ratio, the four percentage sliders, and the horizon), and finally derives
`base_rent_per_year = base_house_equity / price_to_rent_ratio`. -/
noncomputable def define_inputs (house_value mincome p2r : ℝ)
    (roi_stocks_pct : ℝ) (ny : ℕ) (roi_re_pct mir_pct dp_pct misc_pct : ℝ) :
    Parameters :=
  { base_house_equity := house_value
    monthly_income := mincome
    price_to_rent := p2r
    roi_stocks := 0.01 * roi_stocks_pct
    num_years := ny
    roi_real_estate := 0.01 * roi_re_pct
    mortgage_interest_rate := 0.01 * mir_pct
    downpayment_frac := 0.01 * dp_pct
    base_house_misc_costs := 0.01 * misc_pct
    base_rent_per_year := house_value / p2r }

open Classical in
/-- `numpy_financial.pmt` with `when = 'end'`, as called by the source:
`temp = (1+rate)**nper`; `fact = nper` when `rate == 0`, else
`(temp - 1)/rate`; result `-(fv + pv*temp)/fact`. -/
noncomputable def npf_pmt (rate : ℝ) (nper : ℕ) (pv fv : ℝ) : ℝ :=
  let temp : ℝ := (1 + rate) ^ nper
  let fact : ℝ := (if rate = 0 then (nper : ℝ) else (temp - 1) / rate)
  (-(fv + pv * temp)) / fact

/-- `get_monthly_mortgage_repayment` from `utils.py` (the free function):
monthly rate `(1+annual)^(1/12) - 1`, `num_years*12` periods, principal
`base_house_equity * (1 - downpayment_ratio)`; negated `npf.pmt`. -/
noncomputable def get_monthly_mortgage_repayment (params : Parameters) : ℝ :=
  let monthly_mortgage_rate : ℝ :=
    ((1 + params.mortgage_interest_rate) ^ ((1 : ℝ) / MONTHS) - 1)
  (-(npf_pmt monthly_mortgage_rate (params.num_years * MONTHS)
      (params.base_house_equity * (1 - params.downpayment_frac)) 0))

/-- The mutable state of `FinancialStatus` from `utils.py`.  `time_months`
models `self.time` (a `relativedelta`, whose normalized `months` attribute
equals the total elapsed months modulo 12). -/
structure FinancialStatus where
  params : Parameters
  decision : Decision
  monthly_income : ℝ
  equity_real_estate : ℝ
  equity_stocks : ℝ
  latest_taxable_house_value : ℝ
  remaining_mortgage_equity : ℝ
  monthly_expenses : ℝ
  cumulative_real_estate_roi : ℝ
  time_months : ℕ

/-- `FinancialStatus.monthly_excess`. -/
noncomputable def monthly_excess (s : FinancialStatus) : ℝ :=
  s.monthly_income - s.monthly_expenses

/-- `FinancialStatus.monthly_misc_costs`. -/
noncomputable def monthly_misc_costs (s : FinancialStatus) : ℝ :=
  s.params.base_house_misc_costs * s.latest_taxable_house_value / MONTHS

/-- `FinancialStatus.monthly_mortgage` (the method): same formula as the
free function, read off the instance's own `params`. -/
noncomputable def monthly_mortgage (s : FinancialStatus) : ℝ :=
  let monthly_mortgage_rate : ℝ :=
    ((1 + s.params.mortgage_interest_rate) ^ ((1 : ℝ) / MONTHS) - 1)
  (-(npf_pmt monthly_mortgage_rate (s.params.num_years * MONTHS)
      (s.params.base_house_equity * (1 - s.params.downpayment_frac)) 0))

/-- The state `__init__` builds before `_instantiate_internal_state` runs:
all balances zero, cumulative ROI 1, time 0. -/
noncomputable def initState (decision : Decision) (params : Parameters) :
    FinancialStatus :=
  { params := params
    decision := decision
    monthly_income := params.monthly_income
    equity_real_estate := 0
    equity_stocks := 0
    latest_taxable_house_value := 0
    remaining_mortgage_equity := 0
    monthly_expenses := 0
    cumulative_real_estate_roi := 1
    time_months := 0 }

/-- The BUY branch of `_instantiate_internal_state`: sets the house equity,
taxable value and mortgage, then computes `monthly_expenses` as
`get_monthly_mortgage_repayment(params) + monthly_misc_costs()` on the
state with the already-updated taxable house value. -/
noncomputable def mkStatusBuy (params : Parameters) : FinancialStatus :=
  let s0 := { initState Decision.BUY params with
    equity_real_estate := params.base_house_equity
    latest_taxable_house_value := params.base_house_equity
    remaining_mortgage_equity :=
      params.base_house_equity * (1 - params.downpayment_frac)
    equity_stocks := 0 }
  { s0 with monthly_expenses :=
      get_monthly_mortgage_repayment params + monthly_misc_costs s0 }

/-- The RENT branch of `_instantiate_internal_state`. -/
noncomputable def mkStatusRent (params : Parameters) : FinancialStatus :=
  { initState Decision.RENT params with
    equity_real_estate := 0
    remaining_mortgage_equity := 0
    equity_stocks := params.base_house_equity * params.downpayment_frac
    monthly_expenses := params.base_rent_per_year / MONTHS }

/-- Construction dispatch on a valid `Decision`. -/
noncomputable def mkStatus (decision : Decision) (params : Parameters) :
    FinancialStatus :=
  match decision with
  | Decision.BUY => mkStatusBuy params
  | Decision.RENT => mkStatusRent params

/-- `FinancialStatus.__init__` together with `_instantiate_internal_state`,
including the `else: raise ValueError` branch.  Python is dynamically
typed, so the `decision` argument may be any value; `Option Decision`
models it, `none` standing for any value that is not a member of the
`Decision` enum. -/
noncomputable def instantiate_internal_state (decision : Option Decision)
    (params : Parameters) : Except String FinancialStatus :=
  match decision with
  | some d => Except.ok (mkStatus d params)
  | none => Except.error "Invalid decision"

/-- True exactly when construction raised the invalid-strategy error. -/
def raisesInvalid (e : Except String FinancialStatus) : Bool :=
  match e with
  | Except.error _ => true
  | Except.ok _ => false

/-- `FinancialStatus.annual_reevaluations`: refresh the taxable house value
from the cumulative real-estate ROI, then recompute `monthly_expenses`
per strategy. -/
noncomputable def annual_reevaluations (s : FinancialStatus) :
    FinancialStatus :=
  let s1 := { s with latest_taxable_house_value :=
      s.params.base_house_equity * s.cumulative_real_estate_roi }
  match s.decision with
  | Decision.BUY =>
      { s1 with monthly_expenses := monthly_mortgage s1 + monthly_misc_costs s1 }
  | Decision.RENT =>
      { s1 with monthly_expenses :=
          s.params.base_rent_per_year * s.cumulative_real_estate_roi / MONTHS }

/-- `FinancialStatus.increment_by_month`: advance time one month, apply the
monthly-equivalent growth factors (arguments default to the parameter
rates when absent), add the monthly excess to stocks, amortize the
mortgage (BUY only), and run the annual re-evaluation on annual
boundaries. -/
noncomputable def increment_by_month (s : FinancialStatus)
    (roi_stocks_arg roi_real_estate_arg : Option ℝ) : FinancialStatus :=
  let t := s.time_months + 1
  let roi_stocks := roi_stocks_arg.getD s.params.roi_stocks
  let roi_real_estate := roi_real_estate_arg.getD s.params.roi_real_estate
  let es := s.equity_stocks * (1 + roi_stocks) ^ ((1 : ℝ) / MONTHS)
  let er := s.equity_real_estate * (1 + roi_real_estate) ^ ((1 : ℝ) / MONTHS)
  let cum := s.cumulative_real_estate_roi *
    (1 + roi_real_estate) ^ ((1 : ℝ) / MONTHS)
  let es := es + monthly_excess s
  let rme :=
    if s.decision = Decision.BUY then
      s.remaining_mortgage_equity -
        s.params.base_house_equity * (1 - s.params.downpayment_frac) /
          (s.params.num_years * MONTHS)
    else s.remaining_mortgage_equity
  let s1 := { s with
    time_months := t
    equity_stocks := es
    equity_real_estate := er
    cumulative_real_estate_roi := cum
    remaining_mortgage_equity := rme }
  if t % MONTHS = 0 then annual_reevaluations s1 else s1

/-- `FinancialStatus.net_worth`. -/
noncomputable def net_worth (s : FinancialStatus) : ℝ :=
  s.equity_real_estate + s.equity_stocks - s.remaining_mortgage_equity

/-- `m` monthly advances with a per-month schedule of optional ROI
overrides (first component stocks, second real estate). -/
noncomputable def advanceSched (rois : ℕ → Option ℝ × Option ℝ)
    (s : FinancialStatus) : ℕ → FinancialStatus
  | 0 => s
  | m + 1 =>
      increment_by_month (advanceSched rois s m) (rois m).1 (rois m).2

/-- `m` monthly advances with the default (parameter) ROIs, as in the
`simulate` loop of `to_rent_or_to_own.py`. -/
noncomputable def advance (s : FinancialStatus) (m : ℕ) : FinancialStatus :=
  advanceSched (fun _ => (none, none)) s m

/-- The concrete scenario of the spec's §8: house value 500000,
price-to-rent ratio 25 (so base rent 20000), 20% downpayment, 30 years,
every rate zero, zero monthly income. -/
noncomputable def scenarioParams : Parameters :=
  { roi_real_estate := 0
    roi_stocks := 0
    mortgage_interest_rate := 0
    base_house_misc_costs := 0
    downpayment_frac := 0.2
    base_house_equity := 500000
    price_to_rent := 25
    base_rent_per_year := 20000
    num_years := 30
    monthly_income := 0 }

/-- The default parameters of `utils_test.py`:
`Parameters(0.05, 0.07, 0.04, 2, 0.2, 500000, 25, 20000, 30, 0)`. -/
noncomputable def defaultParams : Parameters :=
  { roi_real_estate := 0.05
    roi_stocks := 0.07
    mortgage_interest_rate := 0.04
    base_house_misc_costs := 2
    downpayment_frac := 0.2
    base_house_equity := 500000
    price_to_rent := 25
    base_rent_per_year := 20000
    num_years := 30
    monthly_income := 0 }

/-! ### Field characterizations of the state transition -/

theorem annual_params (s : FinancialStatus) :
    (annual_reevaluations s).params = s.params := by
  cases hd : s.decision <;> simp [annual_reevaluations, hd]

theorem annual_decision (s : FinancialStatus) :
    (annual_reevaluations s).decision = s.decision := by
  cases hd : s.decision <;> simp [annual_reevaluations, hd]

theorem annual_income (s : FinancialStatus) :
    (annual_reevaluations s).monthly_income = s.monthly_income := by
  cases hd : s.decision <;> simp [annual_reevaluations, hd]

theorem annual_equity_stocks (s : FinancialStatus) :
    (annual_reevaluations s).equity_stocks = s.equity_stocks := by
  cases hd : s.decision <;> simp [annual_reevaluations, hd]

theorem annual_equity_real_estate (s : FinancialStatus) :
    (annual_reevaluations s).equity_real_estate = s.equity_real_estate := by
  cases hd : s.decision <;> simp [annual_reevaluations, hd]

theorem annual_remaining (s : FinancialStatus) :
    (annual_reevaluations s).remaining_mortgage_equity =
      s.remaining_mortgage_equity := by
  cases hd : s.decision <;> simp [annual_reevaluations, hd]

theorem annual_cum (s : FinancialStatus) :
    (annual_reevaluations s).cumulative_real_estate_roi =
      s.cumulative_real_estate_roi := by
  cases hd : s.decision <;> simp [annual_reevaluations, hd]

theorem annual_time (s : FinancialStatus) :
    (annual_reevaluations s).time_months = s.time_months := by
  cases hd : s.decision <;> simp [annual_reevaluations, hd]

theorem annual_latest (s : FinancialStatus) :
    (annual_reevaluations s).latest_taxable_house_value =
      s.params.base_house_equity * s.cumulative_real_estate_roi := by
  cases hd : s.decision <;> simp [annual_reevaluations, hd]

theorem annual_expenses_buy (s : FinancialStatus) (hd : s.decision = Decision.BUY) :
    (annual_reevaluations s).monthly_expenses =
      monthly_mortgage (annual_reevaluations s) +
        monthly_misc_costs (annual_reevaluations s) := by
  simp [annual_reevaluations, hd, monthly_mortgage, monthly_misc_costs]

theorem annual_expenses_rent (s : FinancialStatus) (hd : s.decision = Decision.RENT) :
    (annual_reevaluations s).monthly_expenses =
      s.params.base_rent_per_year * s.cumulative_real_estate_roi / MONTHS := by
  simp [annual_reevaluations, hd]

theorem increment_params (s : FinancialStatus) (a b : Option ℝ) :
    (increment_by_month s a b).params = s.params := by
  simp only [increment_by_month]
  split <;> simp [annual_params]

theorem increment_decision (s : FinancialStatus) (a b : Option ℝ) :
    (increment_by_month s a b).decision = s.decision := by
  simp only [increment_by_month]
  split <;> simp [annual_decision]

theorem increment_income (s : FinancialStatus) (a b : Option ℝ) :
    (increment_by_month s a b).monthly_income = s.monthly_income := by
  simp only [increment_by_month]
  split <;> simp [annual_income]

theorem increment_time (s : FinancialStatus) (a b : Option ℝ) :
    (increment_by_month s a b).time_months = s.time_months + 1 := by
  simp only [increment_by_month]
  split <;> simp [annual_time]

theorem increment_equity_stocks (s : FinancialStatus) (a b : Option ℝ) :
    (increment_by_month s a b).equity_stocks =
      s.equity_stocks * (1 + a.getD s.params.roi_stocks) ^ ((1 : ℝ) / MONTHS) +
        monthly_excess s := by
  simp only [increment_by_month]
  split <;> simp [annual_equity_stocks]

theorem increment_equity_real_estate (s : FinancialStatus) (a b : Option ℝ) :
    (increment_by_month s a b).equity_real_estate =
      s.equity_real_estate *
        (1 + b.getD s.params.roi_real_estate) ^ ((1 : ℝ) / MONTHS) := by
  simp only [increment_by_month]
  split <;> simp [annual_equity_real_estate]

theorem increment_cum (s : FinancialStatus) (a b : Option ℝ) :
    (increment_by_month s a b).cumulative_real_estate_roi =
      s.cumulative_real_estate_roi *
        (1 + b.getD s.params.roi_real_estate) ^ ((1 : ℝ) / MONTHS) := by
  simp only [increment_by_month]
  split <;> simp [annual_cum]

theorem increment_remaining (s : FinancialStatus) (a b : Option ℝ) :
    (increment_by_month s a b).remaining_mortgage_equity =
      s.remaining_mortgage_equity -
        (if s.decision = Decision.BUY then
          s.params.base_house_equity * (1 - s.params.downpayment_frac) /
            (s.params.num_years * MONTHS)
        else 0) := by
  simp only [increment_by_month]
  split <;> (simp only [annual_remaining]; split <;> simp)

theorem increment_latest_not_annual (s : FinancialStatus) (a b : Option ℝ)
    (h : (s.time_months + 1) % MONTHS ≠ 0) :
    (increment_by_month s a b).latest_taxable_house_value =
      s.latest_taxable_house_value := by
  simp only [increment_by_month]
  split
  · exact absurd (by assumption) h
  · simp

theorem increment_expenses_not_annual (s : FinancialStatus) (a b : Option ℝ)
    (h : (s.time_months + 1) % MONTHS ≠ 0) :
    (increment_by_month s a b).monthly_expenses = s.monthly_expenses := by
  simp only [increment_by_month]
  split
  · exact absurd (by assumption) h
  · simp

theorem increment_latest_annual (s : FinancialStatus) (a b : Option ℝ)
    (h : (s.time_months + 1) % MONTHS = 0) :
    (increment_by_month s a b).latest_taxable_house_value =
      s.params.base_house_equity *
        (increment_by_month s a b).cumulative_real_estate_roi := by
  rw [increment_cum]
  simp only [increment_by_month]
  split
  · simp [annual_latest]
  · exact absurd h (by assumption)

theorem increment_expenses_annual_rent (s : FinancialStatus) (a b : Option ℝ)
    (h : (s.time_months + 1) % MONTHS = 0) (hd : s.decision = Decision.RENT) :
    (increment_by_month s a b).monthly_expenses =
      s.params.base_rent_per_year *
        (increment_by_month s a b).cumulative_real_estate_roi / MONTHS := by
  rw [increment_cum]
  simp only [increment_by_month]
  split
  · rw [annual_expenses_rent _ (by simpa using hd)]
  · exact absurd h (by assumption)

theorem increment_expenses_annual_buy (s : FinancialStatus) (a b : Option ℝ)
    (h : (s.time_months + 1) % MONTHS = 0) (hd : s.decision = Decision.BUY) :
    (increment_by_month s a b).monthly_expenses =
      monthly_mortgage (increment_by_month s a b) +
        monthly_misc_costs (increment_by_month s a b) := by
  simp only [increment_by_month]
  split
  · rw [annual_expenses_buy _ (by simpa using hd)]
  · exact absurd h (by assumption)

/-! ### Iteration lemmas -/

theorem advanceSched_params (rois : ℕ → Option ℝ × Option ℝ)
    (s : FinancialStatus) (m : ℕ) :
    (advanceSched rois s m).params = s.params := by
  induction m with
  | zero => rfl
  | succ m ih => rw [advanceSched, increment_params, ih]

theorem advanceSched_decision (rois : ℕ → Option ℝ × Option ℝ)
    (s : FinancialStatus) (m : ℕ) :
    (advanceSched rois s m).decision = s.decision := by
  induction m with
  | zero => rfl
  | succ m ih => rw [advanceSched, increment_decision, ih]

theorem advanceSched_income (rois : ℕ → Option ℝ × Option ℝ)
    (s : FinancialStatus) (m : ℕ) :
    (advanceSched rois s m).monthly_income = s.monthly_income := by
  induction m with
  | zero => rfl
  | succ m ih => rw [advanceSched, increment_income, ih]

theorem advanceSched_time (rois : ℕ → Option ℝ × Option ℝ)
    (s : FinancialStatus) (m : ℕ) :
    (advanceSched rois s m).time_months = s.time_months + m := by
  induction m with
  | zero => rfl
  | succ m ih =>
      rw [advanceSched, increment_time, ih]
      omega

theorem mkStatusBuy_decision (params : Parameters) :
    (mkStatusBuy params).decision = Decision.BUY := rfl

theorem mkStatusRent_decision (params : Parameters) :
    (mkStatusRent params).decision = Decision.RENT := rfl

theorem advanceSched_remaining_buy (rois : ℕ → Option ℝ × Option ℝ)
    (params : Parameters) (m : ℕ) :
    (advanceSched rois (mkStatusBuy params) m).remaining_mortgage_equity =
      params.base_house_equity * (1 - params.downpayment_frac) -
        m * (params.base_house_equity * (1 - params.downpayment_frac) /
          (params.num_years * MONTHS)) := by
  induction m with
  | zero => simp [advanceSched, mkStatusBuy, initState]
  | succ m ih =>
      rw [advanceSched, increment_remaining, ih, advanceSched_decision,
        advanceSched_params, mkStatusBuy_decision]
      simp only [if_pos rfl]
      have hp : (mkStatusBuy params).params = params := rfl
      rw [hp]
      push_cast
      ring

theorem advanceSched_remaining_rent (rois : ℕ → Option ℝ × Option ℝ)
    (params : Parameters) (m : ℕ) :
    (advanceSched rois (mkStatusRent params) m).remaining_mortgage_equity = 0 := by
  induction m with
  | zero => simp [advanceSched, mkStatusRent, initState]
  | succ m ih =>
      rw [advanceSched, increment_remaining, ih, advanceSched_decision,
        mkStatusRent_decision]
      simp

theorem monthly_mortgage_eq (s : FinancialStatus) :
    monthly_mortgage s = get_monthly_mortgage_repayment s.params := rfl

theorem advance_succ (s : FinancialStatus) (m : ℕ) :
    advance s (m + 1) = increment_by_month (advance s m) none none := rfl

theorem advance_params (s : FinancialStatus) (m : ℕ) :
    (advance s m).params = s.params := advanceSched_params _ s m

theorem advance_decision (s : FinancialStatus) (m : ℕ) :
    (advance s m).decision = s.decision := advanceSched_decision _ s m

theorem advance_income (s : FinancialStatus) (m : ℕ) :
    (advance s m).monthly_income = s.monthly_income :=
  advanceSched_income _ s m

theorem advance_time (s : FinancialStatus) (m : ℕ) :
    (advance s m).time_months = s.time_months + m := advanceSched_time _ s m

/-- For zero annual rate the monthly-equivalent growth factor is one. -/
theorem fac_zero_roi : ((1 : ℝ) + 0) ^ ((1 : ℝ) / MONTHS) = 1 := by
  norm_num [Real.one_rpow]

/-- At zero interest rate the mortgage payment in the concrete scenario is
the straight principal split `400000 / 360`. -/
theorem scenario_mortgage :
    get_monthly_mortgage_repayment scenarioParams = 400000 / 360 := by
  simp only [get_monthly_mortgage_repayment, npf_pmt, scenarioParams, MONTHS]
  norm_num [Real.one_rpow]

/-! ### Claims -/

/-- C1: constructing a `Parameters` bundle through `define_inputs` derives
`base_rent_per_year = base_house_equity / price_to_rent_ratio`, and the
monthly-advance operation never mutates the parameter bundle (so the
derived field is never independently mutated afterwards). -/
theorem C1_base_rent_derived :
    (∀ hv mi p2r rs ny rre mir dp mc,
      (define_inputs hv mi p2r rs ny rre mir dp mc).base_rent_per_year =
        (define_inputs hv mi p2r rs ny rre mir dp mc).base_house_equity /
          (define_inputs hv mi p2r rs ny rre mir dp mc).price_to_rent) ∧
    (∀ (s : FinancialStatus) (a b : Option ℝ),
      (increment_by_month s a b).params = s.params) := by
  constructor
  · intro hv mi p2r rs ny rre mir dp mc
    rfl
  · exact increment_params

/-- C2: from the same parameters, the BUY and the RENT simulators have
equal net worth immediately after construction, both equal to
`base_house_equity * downpayment_ratio`. -/
theorem C2_equal_initial_net_worth : ∀ params : Parameters,
    net_worth (mkStatus Decision.BUY params) =
      net_worth (mkStatus Decision.RENT params) ∧
    net_worth (mkStatus Decision.BUY params) =
      params.base_house_equity * params.downpayment_frac := by
  intro p
  constructor <;>
    simp [mkStatus, mkStatusBuy, mkStatusRent, initState, net_worth] <;> ring

/-- C7: the free mortgage-payment function and the simulator method compute
the same value (the method reads only the static parameters), and the
method's value is invariant under the monthly advance. -/
theorem C7_mortgage_method_eq_free :
    (∀ s : FinancialStatus,
      monthly_mortgage s = get_monthly_mortgage_repayment s.params) ∧
    (∀ (s : FinancialStatus) (a b : Option ℝ),
      monthly_mortgage (increment_by_month s a b) = monthly_mortgage s) := by
  constructor
  · intro s
    rfl
  · intro s a b
    simp [monthly_mortgage, increment_params]

/-- C4: each monthly advance (for either strategy and any per-call ROI
overrides) sets `equity_stocks` to the grown old balance plus the monthly
excess computed from the pre-step expenses (the added cash flow earns no
growth this month), and multiplies both `equity_real_estate` and
`cumulative_real_estate_roi` by the same factor
`(1 + roi_real_estate)^(1/12)`. -/
theorem C4_monthly_growth : ∀ (s : FinancialStatus) (a b : Option ℝ),
    (increment_by_month s a b).equity_stocks =
      s.equity_stocks * (1 + a.getD s.params.roi_stocks) ^ ((1 : ℝ) / MONTHS) +
        monthly_excess s ∧
    (increment_by_month s a b).equity_real_estate =
      s.equity_real_estate *
        (1 + b.getD s.params.roi_real_estate) ^ ((1 : ℝ) / MONTHS) ∧
    (increment_by_month s a b).cumulative_real_estate_roi =
      s.cumulative_real_estate_roi *
        (1 + b.getD s.params.roi_real_estate) ^ ((1 : ℝ) / MONTHS) :=
  fun s a b =>
    ⟨increment_equity_stocks s a b, increment_equity_real_estate s a b,
      increment_cum s a b⟩

/-- C5: each monthly advance decreases `remaining_mortgage_equity` by the
constant straight-line amount (for BUY; RENT leaves it unchanged),
independent of the interest rate and of the ROI arguments; hence after `m`
advances a BUY simulator has
`base_house_equity*(1-downpayment_ratio)*(1 - m/(num_years*12))` left and a
RENT simulator still has `0`. -/
theorem C5_straight_line_amortization :
    (∀ (s : FinancialStatus) (a b : Option ℝ),
      (increment_by_month s a b).remaining_mortgage_equity =
        s.remaining_mortgage_equity -
          (if s.decision = Decision.BUY then
            s.params.base_house_equity * (1 - s.params.downpayment_frac) /
              (s.params.num_years * MONTHS)
          else 0)) ∧
    (∀ (params : Parameters) (rois : ℕ → Option ℝ × Option ℝ) (m : ℕ),
      (advanceSched rois (mkStatusBuy params) m).remaining_mortgage_equity =
        params.base_house_equity * (1 - params.downpayment_frac) *
          (1 - m / (params.num_years * MONTHS)) ∧
      (advanceSched rois (mkStatusRent params) m).remaining_mortgage_equity
        = 0) := by
  constructor
  · exact increment_remaining
  · intro params rois m
    refine ⟨?_, advanceSched_remaining_rent rois params m⟩
    rw [advanceSched_remaining_buy]
    ring

/-- C6: a monthly advance performs the annual re-evaluation (taxable house
value refreshed to `base_house_equity * cumulative_real_estate_roi` and
`monthly_expenses` recomputed, RENT's as
`base_rent_per_year * cumulative_real_estate_roi / 12`) exactly when the
elapsed months after the step are a multiple of 12; on every other step
`latest_taxable_house_value` and `monthly_expenses` are unchanged. -/
theorem C6_annual_boundary : ∀ (s : FinancialStatus) (a b : Option ℝ),
    (increment_by_month s a b).time_months = s.time_months + 1 ∧
    (if (s.time_months + 1) % MONTHS = 0 then
      (increment_by_month s a b).latest_taxable_house_value =
        s.params.base_house_equity *
          (increment_by_month s a b).cumulative_real_estate_roi ∧
      (increment_by_month s a b).monthly_expenses =
        (match s.decision with
        | Decision.BUY =>
            monthly_mortgage (increment_by_month s a b) +
              monthly_misc_costs (increment_by_month s a b)
        | Decision.RENT =>
            s.params.base_rent_per_year *
              (increment_by_month s a b).cumulative_real_estate_roi / MONTHS)
    else
      (increment_by_month s a b).latest_taxable_house_value =
        s.latest_taxable_house_value ∧
      (increment_by_month s a b).monthly_expenses = s.monthly_expenses) := by
  intro s a b
  refine ⟨increment_time s a b, ?_⟩
  by_cases h : (s.time_months + 1) % MONTHS = 0
  · rw [if_pos h]
    refine ⟨increment_latest_annual s a b h, ?_⟩
    cases hd : s.decision with
    | RENT => simpa using increment_expenses_annual_rent s a b h hd
    | BUY => simpa using increment_expenses_annual_buy s a b h hd
  · rw [if_neg h]
    exact ⟨increment_latest_not_annual s a b h,
      increment_expenses_not_annual s a b h⟩

/-- C8: construction raises the invalid-strategy error exactly when the
decision tag is neither BUY nor RENT; for the two genuine tags it never
raises (and in the error case no simulator state is produced, the result
being the bare error value). -/
theorem C8_invalid_strategy : ∀ (params : Parameters) (d : Option Decision),
    raisesInvalid (instantiate_internal_state d params) = true ↔
      (d ≠ some Decision.BUY ∧ d ≠ some Decision.RENT) := by
  intro p d
  rcases d with _ | d
  · simp [instantiate_internal_state, raisesInvalid]
  · cases d <;> simp [instantiate_internal_state, raisesInvalid, mkStatus]

/-- C9: with zero mortgage interest rate and at least one year of horizon,
the monthly payment times the number of periods repays exactly the
principal `base_house_equity * (1 - downpayment_ratio)`. -/
theorem C9_zero_rate_amortization : ∀ params : Parameters,
    params.mortgage_interest_rate = 0 → 1 ≤ params.num_years →
    get_monthly_mortgage_repayment params * params.num_years * MONTHS =
      params.base_house_equity * (1 - params.downpayment_frac) := by
  intro p h0 hn
  have hne : (p.num_years : ℝ) ≠ 0 := Nat.cast_ne_zero.mpr (by omega)
  simp only [get_monthly_mortgage_repayment, npf_pmt, h0, MONTHS]
  rw [show ((1 : ℝ) + 0) ^ ((1 : ℝ) / (12 : ℕ)) - 1 = 0 by
    norm_num [Real.one_rpow]]
  rw [if_pos rfl]
  push_cast
  field_simp
  ring

/-- Witness for C9 at the concrete scenario parameters. -/
theorem C9_zero_rate_amortization_witness :
    scenarioParams.mortgage_interest_rate = 0 ∧
    1 ≤ scenarioParams.num_years ∧
    get_monthly_mortgage_repayment scenarioParams * scenarioParams.num_years *
        MONTHS =
      scenarioParams.base_house_equity * (1 - scenarioParams.downpayment_frac) :=
  ⟨rfl, by norm_num [scenarioParams],
    C9_zero_rate_amortization scenarioParams rfl (by norm_num [scenarioParams])⟩

/-- Closed form of the RENT simulator's state in the concrete zero-rate
scenario: stocks decay linearly by the monthly rent, everything else is
frozen. -/
theorem scenario_rent_state (m : ℕ) :
    (advance (mkStatusRent scenarioParams) m).equity_stocks =
        100000 - m * (20000 / 12) ∧
      (advance (mkStatusRent scenarioParams) m).equity_real_estate = 0 ∧
      (advance (mkStatusRent scenarioParams) m).monthly_expenses = 20000 / 12 ∧
      (advance (mkStatusRent scenarioParams) m).cumulative_real_estate_roi
        = 1 := by
  induction m with
  | zero =>
      refine ⟨?_, rfl, ?_, rfl⟩ <;>
        norm_num [advance, advanceSched, mkStatusRent, initState,
          scenarioParams, MONTHS]
  | succ m ih =>
      obtain ⟨h1, h2, h3, h4⟩ := ih
      have hd : (advance (mkStatusRent scenarioParams) m).decision =
          Decision.RENT := by
        rw [advance_decision, mkStatusRent_decision]
      have hp : (advance (mkStatusRent scenarioParams) m).params =
          scenarioParams := by
        rw [advance_params]
        rfl
      have hinc : (advance (mkStatusRent scenarioParams) m).monthly_income
          = 0 := by
        rw [advance_income]
        norm_num [mkStatusRent, initState, scenarioParams]
      have hroi : scenarioParams.roi_stocks = 0 := rfl
      have hroi2 : scenarioParams.roi_real_estate = 0 := rfl
      have hexc : monthly_excess (advance (mkStatusRent scenarioParams) m) =
          -(20000 / 12) := by
        rw [monthly_excess, hinc, h3]
        ring
      refine ⟨?_, ?_, ?_, ?_⟩
      · rw [advance_succ, increment_equity_stocks, h1, hp, hexc,
          Option.getD_none, hroi, fac_zero_roi]
        push_cast
        ring
      · rw [advance_succ, increment_equity_real_estate, h2, hp,
          Option.getD_none, hroi2, fac_zero_roi]
        ring
      · by_cases hb :
            ((advance (mkStatusRent scenarioParams) m).time_months + 1) %
              MONTHS = 0
        · rw [advance_succ, increment_expenses_annual_rent _ none none hb hd,
            increment_cum, h4, hp, Option.getD_none, hroi2, fac_zero_roi]
          norm_num [scenarioParams, MONTHS]
        · rw [advance_succ, increment_expenses_not_annual _ none none hb, h3]
      · rw [advance_succ, increment_cum, h4, hp, Option.getD_none, hroi2,
          fac_zero_roi]
        ring

/-- Closed form of the BUY simulator's state in the concrete zero-rate
scenario: stocks decay linearly by the mortgage payment, the house equity
and the expenses are frozen. -/
theorem scenario_buy_state (m : ℕ) :
    (advance (mkStatusBuy scenarioParams) m).equity_stocks =
        -(m * (400000 / 360)) ∧
      (advance (mkStatusBuy scenarioParams) m).equity_real_estate = 500000 ∧
      (advance (mkStatusBuy scenarioParams) m).monthly_expenses =
        400000 / 360 ∧
      (advance (mkStatusBuy scenarioParams) m).cumulative_real_estate_roi
        = 1 := by
  induction m with
  | zero =>
      refine ⟨?_, rfl, ?_, rfl⟩
      · norm_num [advance, advanceSched, mkStatusBuy, initState,
          scenarioParams]
      · show get_monthly_mortgage_repayment scenarioParams +
          monthly_misc_costs _ = 400000 / 360
        rw [scenario_mortgage]
        norm_num [monthly_misc_costs, mkStatusBuy, initState, scenarioParams]
  | succ m ih =>
      obtain ⟨h1, h2, h3, h4⟩ := ih
      have hd : (advance (mkStatusBuy scenarioParams) m).decision =
          Decision.BUY := by
        rw [advance_decision, mkStatusBuy_decision]
      have hp : (advance (mkStatusBuy scenarioParams) m).params =
          scenarioParams := by
        rw [advance_params]
        rfl
      have hinc : (advance (mkStatusBuy scenarioParams) m).monthly_income
          = 0 := by
        rw [advance_income]
        norm_num [mkStatusBuy, initState, scenarioParams]
      have hroi : scenarioParams.roi_stocks = 0 := rfl
      have hroi2 : scenarioParams.roi_real_estate = 0 := rfl
      have hexc : monthly_excess (advance (mkStatusBuy scenarioParams) m) =
          -(400000 / 360) := by
        rw [monthly_excess, hinc, h3]
        ring
      refine ⟨?_, ?_, ?_, ?_⟩
      · rw [advance_succ, increment_equity_stocks, h1, hp, hexc,
          Option.getD_none, hroi, fac_zero_roi]
        push_cast
        ring
      · rw [advance_succ, increment_equity_real_estate, h2, hp,
          Option.getD_none, hroi2, fac_zero_roi]
        ring
      · by_cases hb :
            ((advance (mkStatusBuy scenarioParams) m).time_months + 1) %
              MONTHS = 0
        · rw [advance_succ, increment_expenses_annual_buy _ none none hb hd]
          rw [monthly_mortgage_eq, ← advance_succ, advance_params]
          rw [show (mkStatusBuy scenarioParams).params = scenarioParams
            from rfl]
          rw [scenario_mortgage, monthly_misc_costs, advance_params]
          rw [show (mkStatusBuy scenarioParams).params = scenarioParams
            from rfl]
          norm_num [scenarioParams]
        · rw [advance_succ, increment_expenses_not_annual _ none none hb, h3]
      · rw [advance_succ, increment_cum, h4, hp, Option.getD_none, hroi2,
          fac_zero_roi]
        ring

/-- C3: in the concrete scenario (house 500000, price-to-rent 25, rent
20000, 20% down, 30 years, all rates and income zero), at each of the 360
sample points the BUY net worth is exactly 100000 and the RENT net worth
is `100000 - m * 20000 / 12`. -/
theorem C3_concrete_scenario : ∀ m : ℕ, m < 360 →
    net_worth (advance (mkStatus Decision.BUY scenarioParams) m) = 100000 ∧
    net_worth (advance (mkStatus Decision.RENT scenarioParams) m) =
      100000 - m * 20000 / 12 := by
  intro m hm
  constructor
  · obtain ⟨h1, h2, h3, h4⟩ := scenario_buy_state m
    have hr : (advance (mkStatusBuy scenarioParams) m).remaining_mortgage_equity
        = scenarioParams.base_house_equity *
            (1 - scenarioParams.downpayment_frac) -
          m * (scenarioParams.base_house_equity *
            (1 - scenarioParams.downpayment_frac) /
              (scenarioParams.num_years * MONTHS)) :=
      advanceSched_remaining_buy _ scenarioParams m
    rw [show mkStatus Decision.BUY scenarioParams = mkStatusBuy scenarioParams
      from rfl, net_worth, h1, h2, hr]
    norm_num [scenarioParams, MONTHS]
    ring
  · obtain ⟨h1, h2, h3, h4⟩ := scenario_rent_state m
    have hr : (advance (mkStatusRent scenarioParams) m).remaining_mortgage_equity
        = 0 := advanceSched_remaining_rent _ scenarioParams m
    rw [show mkStatus Decision.RENT scenarioParams = mkStatusRent scenarioParams
      from rfl, net_worth, h1, h2, hr]
    ring

/-- Witness for C3 at the first sample point. -/
theorem C3_concrete_scenario_witness :
    (0 : ℕ) < 360 ∧
    (net_worth (advance (mkStatus Decision.BUY scenarioParams) 0) = 100000 ∧
      net_worth (advance (mkStatus Decision.RENT scenarioParams) 0) =
        100000 - (0 : ℕ) * 20000 / 12) :=
  ⟨by norm_num, C3_concrete_scenario 0 (by norm_num)⟩

/-- Before the first annual boundary the taxable house value is whatever
construction set it to. -/
theorem advance_latest_of_lt (s : FinancialStatus) (hs : s.time_months = 0)
    (m : ℕ) (hm : m < 12) :
    (advance s m).latest_taxable_house_value =
      s.latest_taxable_house_value := by
  induction m with
  | zero => rfl
  | succ m ih =>
      have hm' : m < 12 := by omega
      have hmod : ((advance s m).time_months + 1) % MONTHS ≠ 0 := by
        rw [advance_time, hs]
        simp only [MONTHS, Nat.zero_add]
        omega
      rw [advance_succ, increment_latest_not_annual _ none none hmod, ih hm']

/-- The twelfth advance performs the first annual re-evaluation: the
taxable house value becomes the base house equity scaled by the
cumulative real-estate ROI. -/
theorem advance_latest_at12 (s : FinancialStatus) (hs : s.time_months = 0) :
    (advance s 12).latest_taxable_house_value =
      s.params.base_house_equity *
        (advance s 12).cumulative_real_estate_roi := by
  have hmod : ((advance s 11).time_months + 1) % MONTHS = 0 := by
    rw [advance_time, hs]
    rfl
  rw [advance_succ, increment_latest_annual _ none none hmod, ← advance_succ,
    advance_params]

/-- With the default ROI above `-1`, the cumulative real-estate ROI stays
positive. -/
theorem advance_cum_pos (s : FinancialStatus)
    (hc : 0 < s.cumulative_real_estate_roi)
    (hroi : -1 < s.params.roi_real_estate) (m : ℕ) :
    0 < (advance s m).cumulative_real_estate_roi := by
  induction m with
  | zero => exact hc
  | succ m ih =>
      rw [advance_succ, increment_cum, Option.getD_none, advance_params]
      exact mul_pos ih (Real.rpow_pos_of_pos (by linarith) _)

/-- From the first annual boundary on, the taxable house value is nonzero
(when the base house equity is). -/
theorem advance_latest_ne (s : FinancialStatus) (hs : s.time_months = 0)
    (hc : 0 < s.cumulative_real_estate_roi)
    (hroi : -1 < s.params.roi_real_estate)
    (hb : s.params.base_house_equity ≠ 0) :
    ∀ m, 12 ≤ m → (advance s m).latest_taxable_house_value ≠ 0 := by
  intro m hm
  induction m, hm using Nat.le_induction with
  | base =>
      rw [advance_latest_at12 s hs]
      exact mul_ne_zero hb (ne_of_gt (advance_cum_pos s hc hroi 12))
  | succ m hm ih =>
      by_cases hmod : ((advance s m).time_months + 1) % MONTHS = 0
      · rw [advance_succ, increment_latest_annual _ none none hmod,
          ← advance_succ, advance_params]
        exact mul_ne_zero hb (ne_of_gt (advance_cum_pos s hc hroi (m + 1)))
      · rw [advance_succ, increment_latest_not_annual _ none none hmod]
        exact ih

/-- C10: for a RENT simulator the taxable house value stays `0` through the
first eleven sampled months, so its misc costs are `0` during the whole
first year; the twelfth advance (the first annual re-evaluation, which
runs for both strategies) sets it to
`base_house_equity * cumulative_real_estate_roi`, after which the RENT
misc costs are nonzero whenever the misc-cost rate and the house equity
are nonzero (default ROIs above `-1`). -/
theorem C10_rent_first_year_misc (params : Parameters)
    (h1 : -1 < params.roi_real_estate)
    (h2 : params.base_house_equity ≠ 0)
    (h3 : params.base_house_misc_costs ≠ 0) : ∀ m : ℕ,
    (if m < 12 then
      (advance (mkStatusRent params) m).latest_taxable_house_value = 0 ∧
        monthly_misc_costs (advance (mkStatusRent params) m) = 0
    else monthly_misc_costs (advance (mkStatusRent params) m) ≠ 0) ∧
    ((advance (mkStatusRent params) 12).latest_taxable_house_value =
        params.base_house_equity *
          (advance (mkStatusRent params) 12).cumulative_real_estate_roi ∧
      (advance (mkStatusBuy params) 12).latest_taxable_house_value =
        params.base_house_equity *
          (advance (mkStatusBuy params) 12).cumulative_real_estate_roi) := by
  intro m
  refine ⟨?_, advance_latest_at12 _ rfl, advance_latest_at12 _ rfl⟩
  by_cases hm : m < 12
  · rw [if_pos hm]
    have hl := advance_latest_of_lt (mkStatusRent params) rfl m hm
    rw [show (mkStatusRent params).latest_taxable_house_value = 0 from rfl]
      at hl
    refine ⟨hl, ?_⟩
    rw [monthly_misc_costs, hl]
    simp
  · rw [if_neg hm]
    push_neg at hm
    have hlat := advance_latest_ne (mkStatusRent params) rfl
      (by norm_num [mkStatusRent, initState]) h1 h2 m hm
    rw [monthly_misc_costs, advance_params,
      show (mkStatusRent params).params = params from rfl]
    exact div_ne_zero (mul_ne_zero h3 hlat) (by norm_num [MONTHS])

/-- Witness for C10 at the test-suite default parameters, month 12. -/
theorem C10_rent_first_year_misc_witness :
    (if (12 : ℕ) < 12 then
      (advance (mkStatusRent defaultParams) 12).latest_taxable_house_value
          = 0 ∧
        monthly_misc_costs (advance (mkStatusRent defaultParams) 12) = 0
    else monthly_misc_costs (advance (mkStatusRent defaultParams) 12) ≠ 0) ∧
    ((advance (mkStatusRent defaultParams) 12).latest_taxable_house_value =
        defaultParams.base_house_equity *
          (advance (mkStatusRent defaultParams) 12).cumulative_real_estate_roi ∧
      (advance (mkStatusBuy defaultParams) 12).latest_taxable_house_value =
        defaultParams.base_house_equity *
          (advance (mkStatusBuy defaultParams) 12).cumulative_real_estate_roi)
    :=
  C10_rent_first_year_misc defaultParams (by norm_num [defaultParams])
    (by norm_num [defaultParams]) (by norm_num [defaultParams]) 12

end RentOrOwn
